import Mathlib

/-!
Shallow embedding of `src/tardis/simulation/base.py` (class `Simulation`), the
legacy iterative convergence controller of TARDIS.  Machine floats are modelled
as rationals; the Monte Carlo transport solver is an oracle supplying, per
executed iteration, the estimated radiation-field quantities and the emitted
luminosity; the fixed exponent `** -0.5` applied to the luminosity ratio in
`Simulation.estimate_t_inner` is an irrational operation and is therefore a
function parameter `powNegHalf` of the run.  Everything else is translated
directly from the source.
-/

attribute [local semireducible] Rat.add Rat.mul Rat.inv Rat.sub

deriving instance DecidableEq for Except

/-- Per-quantity convergence-strategy section
(`tardis_config.montecarlo.convergence_strategy.<quantity>`): the damping
constant used by the damped update and the threshold used by the convergence
verdict. -/
structure QuantitySection where
  damping_constant : ℚ
  threshold : ℚ
deriving DecidableEq

/-- Convergence-strategy configuration section
(`tardis_config.montecarlo.convergence_strategy`): a discriminating `type`
string, one `QuantitySection` per quantity, and the `hold_iterations` and
`lock_t_inner_cycles` entries read by the controller. -/
structure ConvergenceStrategy where
  type : String
  t_rad : QuantitySection
  w : QuantitySection
  t_inner : QuantitySection
  hold_iterations : ℕ
  lock_t_inner_cycles : ℕ
deriving DecidableEq

/-- Configuration values consumed by `Simulation.legacy_run_simulation`,
flattened from `tardis_config.montecarlo`, `tardis_config.structure` and
`tardis_config.supernova`. -/
structure TardisConfig where
  iterations : ℕ
  no_of_packets : ℕ
  last_no_of_packets : Option ℕ
  no_of_virtual_packets : ℕ
  convergence_strategy : ConvergenceStrategy
  no_of_shells : ℕ
  luminosity_requested : ℚ
deriving DecidableEq

/-- Simulation.damped_converge (base.py lines 184 to 186):
`value + damping_factor * (estimated_value - value)`. -/
def damped_converge (value estimated_value damping_factor : ℚ) : ℚ :=
  value + damping_factor * (estimated_value - value)

/-- Elementwise `damped_converge` on per-shell vectors; in the source the same
scalar formula is broadcast by numpy over the per-shell arrays. -/
def damped_converge_vec (value estimated_value : List ℚ) (damping_factor : ℚ) : List ℚ :=
  List.zipWith (fun v e => damped_converge v e damping_factor) value estimated_value

/-- Relative deviation `abs (x - estimated_x) / estimated_x` computed at the top
of `Simulation.get_convergence_status` (base.py lines 98 to 102) for each
quantity. -/
def relative_deviation (current estimated : ℚ) : ℚ :=
  |current - estimated| / estimated

/-- Elementwise `relative_deviation` on per-shell vectors (numpy broadcast). -/
def relative_deviation_vec (current estimated : List ℚ) : List ℚ :=
  List.zipWith relative_deviation current estimated

/-- Simulation.get_convergence_status (base.py lines 93 to 130).  In mode
"specific" it counts, per quantity, the shells whose relative deviation is
strictly below that threshold, divides by `no_of_shells`, and requires the
fraction to strictly exceed the same threshold; `t_inner` uses the scalar
deviation strictly below its threshold; the verdict is the conjunction.  Any
other mode returns `False`. -/
def get_convergence_status (strategy : ConvergenceStrategy) (no_of_shells : ℕ)
    (t_rad w : List ℚ) (t_inner : ℚ)
    (estimated_t_rad estimated_w : List ℚ) (estimated_t_inner : ℚ) : Bool :=
  let convergence_t_rad := relative_deviation_vec t_rad estimated_t_rad
  let convergence_w := relative_deviation_vec w estimated_w
  let convergence_t_inner := relative_deviation t_inner estimated_t_inner
  if strategy.type = "specific" then
    let fraction_t_rad_converged : ℚ :=
      ((convergence_t_rad.countP fun x => decide (x < strategy.t_rad.threshold)) : ℚ) /
        (no_of_shells : ℚ)
    let t_rad_converged : Bool := decide (fraction_t_rad_converged > strategy.t_rad.threshold)
    let fraction_w_converged : ℚ :=
      ((convergence_w.countP fun x => decide (x < strategy.w.threshold)) : ℚ) /
        (no_of_shells : ℚ)
    let w_converged : Bool := decide (fraction_w_converged > strategy.w.threshold)
    let t_inner_converged : Bool := decide (convergence_t_inner < strategy.t_inner.threshold)
    t_rad_converged && w_converged && t_inner_converged
  else
    false

/-- Error message raised by `Simulation.calculate_next_plasma_state` (base.py
lines 211 to 213) for an unrecognized convergence-strategy type. -/
def convergence_type_error_message (type : String) : String :=
  "Convergence strategy type is neither damped nor specific - input is " ++ type

/-- Simulation.calculate_next_plasma_state (base.py lines 189 to 213): in modes
"damped" and "specific" the damped update is applied to each quantity with its
own damping constant; any other mode raises a `ValueError` naming the mode. -/
def calculate_next_plasma_state (strategy : ConvergenceStrategy)
    (t_rad w : List ℚ) (t_inner : ℚ)
    (estimated_w estimated_t_rad : List ℚ) (estimated_t_inner : ℚ) :
    Except String (List ℚ × List ℚ × ℚ) :=
  if strategy.type = "damped" ∨ strategy.type = "specific" then
    Except.ok
      (damped_converge_vec t_rad estimated_t_rad strategy.t_rad.damping_constant,
       damped_converge_vec w estimated_w strategy.w.damping_constant,
       damped_converge t_inner estimated_t_inner strategy.t_inner.damping_constant)
  else
    Except.error (convergence_type_error_message strategy.type)

/-- Condition checked in `Simulation.run_single_montecarlo` (base.py lines 62
to 63): `np.sum(montecarlo_energies < 0) == len(montecarlo_energies)`, in which
case `logger.critical` reports that no r-packet escaped through the outer
boundary.  The source only logs; no exception is raised on this path. -/
def run_single_montecarlo_critical (montecarlo_energies : List ℚ) : Bool :=
  decide ((montecarlo_energies.countP fun e => decide (e < 0)) =
    montecarlo_energies.length)

/-- Simulation.estimate_t_inner (base.py lines 84 to 91):
`input_t_inner * (emitted_luminosity / luminosity_requested) ** -0.5`.  The
fixed exponent `-0.5` is irrational, so the power is the parameter
`powNegHalf`. -/
def estimate_t_inner (powNegHalf : ℚ → ℚ) (input_t_inner : ℚ)
    (luminosity_requested emitted_luminosity : ℚ) : ℚ :=
  input_t_inner * powNegHalf (emitted_luminosity / luminosity_requested)

/-- Iteration-budget transition executed once per completed loop iteration in
`Simulation.legacy_run_simulation` (base.py lines 293 to 313), after the
verdict of the current iteration is known: the three-branch sticky-flag
machine, followed by the unconditional re-arm of `iterations_remaining` to
`hold_iterations` whenever the current verdict is true.  Returns the new
`iterations_remaining` and the new sticky `converged` flag. -/
def budget_transition (hold_iterations iterations_max_requested : ℕ)
    (iterations_executed : ℕ) (converged self_converged : Bool)
    (iterations_remaining : ℤ) : ℤ × Bool :=
  let step1 : ℤ × Bool :=
    if converged && !self_converged then
      ((hold_iterations : ℤ), true)
    else if !converged && self_converged then
      ((iterations_max_requested : ℤ) - (iterations_executed : ℤ), false)
    else
      (iterations_remaining, self_converged)
  if converged then ((hold_iterations : ℤ), step1.2) else step1

/-- Record of one call to `Simulation.run_single_montecarlo`, the transport
invocation (base.py lines 35 to 54). -/
structure MonteCarloCall where
  no_of_packets : ℕ
  no_of_virtual_packets : ℕ
  last_run : Bool
deriving DecidableEq

/-- Output of the opaque Monte Carlo runner consumed by one loop iteration:
the estimated radiation-field properties (base.py lines 264 to 265) and the
emitted luminosity entering `estimate_t_inner`. -/
structure RunnerOutput where
  estimated_t_rad : List ℚ
  estimated_w : List ℚ
  emitted_luminosity : ℚ
deriving DecidableEq

/-- State of `Simulation.legacy_run_simulation` while the main loop runs:
the budget counters, the sticky `self.converged` flag, the local `converged`
variable holding the verdict of the most recent iteration, the plasma state
held by the model, and traces of the transport calls made and the verdicts
computed. -/
structure SimState where
  iterations_remaining : ℤ
  iterations_executed : ℕ
  self_converged : Bool
  converged : Bool
  t_rads : List ℚ
  ws : List ℚ
  t_inner : ℚ
  calls : List MonteCarloCall
  verdicts : List Bool
deriving DecidableEq

/-- One iteration of the main loop of `Simulation.legacy_run_simulation`
(base.py lines 255 to 313): run the transport with the normal packet count and
zero virtual packets, bump the counters, estimate the new state, compute the
verdict, compute the damped next state (which may raise for an unknown
strategy type), install it on the model, and apply `budget_transition`. -/
def loop_body (cfg : TardisConfig) (powNegHalf : ℚ → ℚ)
    (runner : ℕ → RunnerOutput) (s : SimState) : Except String SimState :=
  let out := runner s.iterations_executed
  let calls := s.calls ++ [⟨cfg.no_of_packets, 0, false⟩]
  let iterations_executed := s.iterations_executed + 1
  let iterations_remaining := s.iterations_remaining - 1
  let estimated_t_inner :=
    estimate_t_inner powNegHalf s.t_inner cfg.luminosity_requested
      out.emitted_luminosity
  let converged :=
    get_convergence_status cfg.convergence_strategy cfg.no_of_shells
      s.t_rads s.ws s.t_inner out.estimated_t_rad out.estimated_w
      estimated_t_inner
  match calculate_next_plasma_state cfg.convergence_strategy s.t_rads s.ws
      s.t_inner out.estimated_w out.estimated_t_rad estimated_t_inner with
  | Except.error e => Except.error e
  | Except.ok (next_t_rad, next_w, next_t_inner) =>
    let budget := budget_transition cfg.convergence_strategy.hold_iterations
      cfg.iterations iterations_executed converged s.self_converged
      iterations_remaining
    Except.ok
      { iterations_remaining := budget.1
        iterations_executed := iterations_executed
        self_converged := budget.2
        converged := converged
        t_rads := next_t_rad
        ws := next_w
        t_inner := next_t_inner
        calls := calls
        verdicts := s.verdicts ++ [converged] }

/-- Fuel-bounded main loop `while self.iterations_remaining > 1` (base.py line
255).  The boolean of the result records whether the loop exited because its
guard became false (`true`) or only because the fuel ran out while the guard
still held (`false`). -/
def run_loop (cfg : TardisConfig) (powNegHalf : ℚ → ℚ)
    (runner : ℕ → RunnerOutput) : ℕ → SimState → Except String (SimState × Bool)
  | 0, s => Except.ok (s, !(decide (1 < s.iterations_remaining)))
  | fuel + 1, s =>
    if 1 < s.iterations_remaining then
      match loop_body cfg powNegHalf runner s with
      | Except.error e => Except.error e
      | Except.ok s' => run_loop cfg powNegHalf runner fuel s'
    else
      Except.ok (s, true)

/-- Initial state of `Simulation.legacy_run_simulation` (base.py lines 245 to
253): the remaining and executed counters are initialised from the configured
iteration count, the local `converged` variable starts false, and the sticky
class attribute `Simulation.converged` starts false. -/
def initial_sim_state (cfg : TardisConfig) (t_rads ws : List ℚ) (t_inner : ℚ) :
    SimState :=
  { iterations_remaining := (cfg.iterations : ℤ)
    iterations_executed := 0
    self_converged := false
    converged := false
    t_rads := t_rads
    ws := ws
    t_inner := t_inner
    calls := []
    verdicts := [] }

/-- Values recorded on the model after the terminal run of
`Simulation.legacy_run_simulation` (base.py lines 315 to 337), together with
the full trace of transport calls. -/
structure RunResult where
  calls : List MonteCarloCall
  verdicts : List Bool
  model_converged : Bool
  model_iterations_executed : ℕ
  model_iterations_max_requested : ℕ
  model_no_of_packets : ℕ
  model_no_of_virtual_packets : ℕ
  model_t_rads : List ℚ
  model_ws : List ℚ
  model_t_inner : ℚ
deriving DecidableEq

/-- Packet count of the terminal run (base.py lines 317 to 320): the configured
last-iteration packet count when one is set, and the normal packet count
otherwise. -/
def last_run_no_of_packets (cfg : TardisConfig) : ℕ :=
  match cfg.last_no_of_packets with
  | some n => n
  | none => cfg.no_of_packets

/-- Simulation.legacy_run_simulation (base.py lines 215 to 340), fuel-bounded:
run the main loop; when it exits (guard false) perform the single terminal
transport call with the configured last-iteration packet count when one is set
and the normal count otherwise, the configured virtual-packet count, and
`last_run=True`; then record the final verdict and the iteration counters on
the model.  Returns `none` when the fuel was exhausted with the loop guard
still true, and propagates the `ValueError` of an unknown strategy type. -/
def legacy_run_simulation (cfg : TardisConfig) (powNegHalf : ℚ → ℚ)
    (runner : ℕ → RunnerOutput) (t_rads ws : List ℚ) (t_inner : ℚ)
    (fuel : ℕ) : Except String (Option RunResult) :=
  match run_loop cfg powNegHalf runner fuel
      (initial_sim_state cfg t_rads ws t_inner) with
  | Except.error e => Except.error e
  | Except.ok (_, false) => Except.ok none
  | Except.ok (s, true) =>
    let no_of_packets := last_run_no_of_packets cfg
    let no_of_virtual_packets := cfg.no_of_virtual_packets
    Except.ok (some
      { calls := s.calls ++ [⟨no_of_packets, no_of_virtual_packets, true⟩]
        verdicts := s.verdicts
        model_converged := s.converged
        model_iterations_executed := s.iterations_executed
        model_iterations_max_requested := cfg.iterations
        model_no_of_packets := no_of_packets
        model_no_of_virtual_packets := no_of_virtual_packets
        model_t_rads := s.t_rads
        model_ws := s.ws
        model_t_inner := s.t_inner })

/-!
Concrete fixtures used by witnesses and counterexamples, followed by a
definition written from the wording of the specification for the refinement
comparison of the convergence verdict.
-/

/-- Fraction of shells converged for one quantity, written from the wording of
the specification: the per-shell relative deviation `|current - estimated| /
estimated` is compared strictly below the threshold, the converged shells are
counted, and the count is divided by the number of shells. -/
def spec_converged_fraction (threshold : ℚ) (current estimated : List ℚ)
    (no_of_shells : ℕ) : ℚ :=
  (((current.zip estimated).countP fun p =>
      decide (|p.1 - p.2| / p.2 < threshold)) : ℚ) / (no_of_shells : ℚ)

/-- Fixture: a "specific" strategy with all thresholds 1/2 and all damping
constants 0, so that the plasma state is left unchanged by the damped update
and the verdict is controlled entirely by the runner outputs. -/
def c2_strategy : ConvergenceStrategy :=
  { type := "specific"
    t_rad := { damping_constant := 0, threshold := 1/2 }
    w := { damping_constant := 0, threshold := 1/2 }
    t_inner := { damping_constant := 0, threshold := 1/2 }
    hold_iterations := 3
    lock_t_inner_cycles := 1 }

/-- Fixture for the hold-iterations scenario: `hold_iterations = 3` inside a
10-iteration budget, one shell. -/
def c2_config : TardisConfig :=
  { iterations := 10
    no_of_packets := 100
    last_no_of_packets := none
    no_of_virtual_packets := 0
    convergence_strategy := c2_strategy
    no_of_shells := 1
    luminosity_requested := 1 }

/-- Fixture power function: the runs below only apply it to the luminosity
ratio 1, and `1 ** -0.5 = 1`. -/
def c2_pow : ℚ → ℚ := fun _ => 1

/-- Fixture runner: during the first four executed iterations the estimated
`t_rad` is far from the current value so the verdict is false; from the fifth
iteration on every estimate matches the current state exactly so the verdict
is true and stays true. -/
def c2_runner : ℕ → RunnerOutput :=
  fun k => if k < 4 then ⟨[3], [1], 1⟩ else ⟨[1], [1], 1⟩

/-- Main loop of the hold-iterations scenario, with the given fuel. -/
def c2_run (fuel : ℕ) : Except String (SimState × Bool) :=
  run_loop c2_config c2_pow c2_runner fuel (initial_sim_state c2_config [1] [1] 1)

/-- States of the hold-iterations scenario from the fifth executed iteration
on: the budget is pinned at `hold_iterations = 3`, the sticky flag is set, and
the plasma state sits at the fixed point `[1] [1] 1`. -/
def c2_plateau (s : SimState) : Prop :=
  s.iterations_remaining = 3 ∧ s.self_converged = true ∧ s.t_rads = [1] ∧
    s.ws = [1] ∧ s.t_inner = 1 ∧ 4 ≤ s.iterations_executed

/-- Fixture: a "damped" strategy. -/
def damped_strategy : ConvergenceStrategy :=
  { type := "damped"
    t_rad := { damping_constant := 1/2, threshold := 1/100 }
    w := { damping_constant := 1/2, threshold := 1/100 }
    t_inner := { damping_constant := 1/2, threshold := 1/100 }
    hold_iterations := 3
    lock_t_inner_cycles := 1 }

/-- Fixture: a strategy whose type is neither "damped" nor "specific". -/
def bogus_strategy : ConvergenceStrategy :=
  { type := "bogus"
    t_rad := { damping_constant := 1/2, threshold := 1/100 }
    w := { damping_constant := 1/2, threshold := 1/100 }
    t_inner := { damping_constant := 1/2, threshold := 1/100 }
    hold_iterations := 3
    lock_t_inner_cycles := 1 }

/-- Fixture: a run configured for exactly one iteration, with a distinct
last-iteration packet count and a nonzero virtual-packet count. -/
def c5_config : TardisConfig :=
  { iterations := 1
    no_of_packets := 20
    last_no_of_packets := some 5
    no_of_virtual_packets := 7
    convergence_strategy := damped_strategy
    no_of_shells := 1
    luminosity_requested := 1 }

/-- Fixture runner whose estimates always equal the fixed point `[1] [1] 1`. -/
def fixed_runner : ℕ → RunnerOutput := fun _ => ⟨[1], [1], 1⟩

/-- Fixture: a three-iteration run in "damped" mode. -/
def c9_config : TardisConfig :=
  { iterations := 3
    no_of_packets := 10
    last_no_of_packets := none
    no_of_virtual_packets := 2
    convergence_strategy := damped_strategy
    no_of_shells := 1
    luminosity_requested := 1 }

/-- State of the hold-iterations scenario right after the fifth executed
iteration, the first one with a true verdict. -/
def c2_s5 : SimState :=
  ⟨3, 5, true, true, [1], [1], 1,
    [⟨100, 0, false⟩, ⟨100, 0, false⟩, ⟨100, 0, false⟩, ⟨100, 0, false⟩,
      ⟨100, 0, false⟩],
    [false, false, false, false, true]⟩

/-- Result of the three-iteration "damped" run of `c9_config` with the fixed
runner: two loop iterations, both with a false verdict, then the terminal
call. -/
def c9_result : RunResult :=
  { calls := [⟨10, 0, false⟩, ⟨10, 0, false⟩, ⟨10, 2, true⟩]
    verdicts := [false, false]
    model_converged := false
    model_iterations_executed := 2
    model_iterations_max_requested := 3
    model_no_of_packets := 10
    model_no_of_virtual_packets := 2
    model_t_rads := [1]
    model_ws := [1]
    model_t_inner := 1 }

/-- Result of the one-iteration run of `c5_config`: the loop body never runs
and the only transport call is the terminal one with the overriding packet
count 5 and the configured 7 virtual packets. -/
def c5_result : RunResult :=
  { calls := [⟨5, 7, true⟩]
    verdicts := []
    model_converged := false
    model_iterations_executed := 0
    model_iterations_max_requested := 1
    model_no_of_packets := 5
    model_no_of_virtual_packets := 7
    model_t_rads := [1]
    model_ws := [1]
    model_t_inner := 1 }

/-!
Theorems.  Each claim of the specification audit is settled by one theorem
below; shared helper lemmas come first.
-/

/-- Helper: counting over an elementwise combination equals counting over the
zipped pairs. -/
theorem countP_zipWith (f : ℚ → ℚ → ℚ) (p : ℚ → Bool) (xs : List ℚ) :
    ∀ ys : List ℚ, (List.zipWith f xs ys).countP p =
      (xs.zip ys).countP fun q => p (f q.1 q.2) := by
  induction xs with
  | nil => intro ys; simp
  | cons x xs ih =>
    intro ys
    cases ys with
    | nil => simp
    | cons y ys => simp [List.countP_cons, ih]

/-- Helper: for any strategy type other than "specific" the verdict is the
constant `false` (the else branch at base.py lines 129 to 130). -/
theorem get_convergence_status_of_ne_specific (strategy : ConvergenceStrategy)
    (h : strategy.type ≠ "specific") (no_of_shells : ℕ) (t_rad w : List ℚ)
    (t_inner : ℚ) (estimated_t_rad estimated_w : List ℚ) (estimated_t_inner : ℚ) :
    get_convergence_status strategy no_of_shells t_rad w t_inner estimated_t_rad
      estimated_w estimated_t_inner = false := by
  simp [get_convergence_status, h]

/-- Helper: a true verdict always pins the remaining budget to
`hold_iterations` and leaves the sticky flag set. -/
theorem budget_transition_converged (hold maxreq executed : ℕ) (sc : Bool)
    (rem : ℤ) :
    budget_transition hold maxreq executed true sc rem = ((hold : ℤ), true) := by
  cases sc <;> rfl

/-- Helper: with a false verdict and a clear sticky flag the transition is a
no-op. -/
theorem budget_transition_idle (hold maxreq executed : ℕ) (rem : ℤ) :
    budget_transition hold maxreq executed false false rem = (rem, false) := rfl

/-- C1: the iteration-budget transition, applied once per completed loop
iteration after the verdict is known, behaves exactly as the three-branch
state machine (switch into hold, switch back recomputing the remaining budget,
otherwise no change), and additionally whenever the current verdict is true
the remaining budget ends the iteration equal to `hold_iterations` regardless
of the branch taken. -/
theorem budget_transition_cases (hold maxreq executed : ℕ)
    (converged self_converged : Bool) (remaining : ℤ) :
    (converged = true → self_converged = false →
      budget_transition hold maxreq executed converged self_converged remaining =
        ((hold : ℤ), true)) ∧
    (converged = false → self_converged = true →
      budget_transition hold maxreq executed converged self_converged remaining =
        ((maxreq : ℤ) - (executed : ℤ), false)) ∧
    (converged = false → self_converged = false →
      budget_transition hold maxreq executed converged self_converged remaining =
        (remaining, false)) ∧
    (converged = true → self_converged = true →
      budget_transition hold maxreq executed converged self_converged remaining =
        ((hold : ℤ), true)) ∧
    (converged = true →
      (budget_transition hold maxreq executed converged self_converged
        remaining).1 = (hold : ℤ)) := by
  cases converged <;> cases self_converged <;> simp [budget_transition]

/-- Witness for C1: entering the hold state at a concrete input. -/
theorem budget_transition_cases_witness :
    budget_transition 3 10 5 true false 5 = ((3 : ℤ), true) :=
  (budget_transition_cases 3 10 5 true false 5).1 rfl rfl

/-- C8: for a damping constant strictly between 0 and 1 and distinct current
and estimated values, the damped update lies strictly between them; it equals
the estimated value when the constant is 1 and the current value when the
constant is 0. -/
theorem damped_converge_between (value estimated d : ℚ) (hne : value ≠ estimated) :
    (0 < d → d < 1 →
      min value estimated < damped_converge value estimated d ∧
      damped_converge value estimated d < max value estimated) ∧
    (d = 1 → damped_converge value estimated d = estimated) ∧
    (d = 0 → damped_converge value estimated d = value) := by
  unfold damped_converge
  refine ⟨fun hd0 hd1 => ?_, fun h => by rw [h]; ring, fun h => by rw [h]; ring⟩
  rcases lt_or_gt_of_ne hne with h | h
  · rw [min_eq_left h.le, max_eq_right h.le]
    constructor
    · nlinarith
    · nlinarith
  · rw [min_eq_right h.le, max_eq_left h.le]
    constructor
    · nlinarith
    · nlinarith

/-- Witness for C8 at `value = 0`, `estimated = 1`, `d = 1/2`. -/
theorem damped_converge_between_witness :
    min (0 : ℚ) 1 < damped_converge 0 1 (1/2) ∧
      damped_converge 0 1 (1/2) < max (0 : ℚ) 1 :=
  (damped_converge_between 0 1 (1/2) (by norm_num)).1 (by norm_num) (by norm_num)

/-- C4: in both "damped" and "specific" modes the next-state computation
returns, for each of `t_rad` (per shell), `w` (per shell) and `t_inner`
(scalar), exactly `current + damping_constant * (estimated - current)` with
that quantity using its own damping constant. -/
theorem calculate_next_plasma_state_damped_update (strategy : ConvergenceStrategy)
    (h : strategy.type = "damped" ∨ strategy.type = "specific")
    (t_rad w : List ℚ) (t_inner : ℚ) (estimated_w estimated_t_rad : List ℚ)
    (estimated_t_inner : ℚ) :
    calculate_next_plasma_state strategy t_rad w t_inner estimated_w
        estimated_t_rad estimated_t_inner =
      Except.ok
        (List.zipWith (fun current estimated =>
            current + strategy.t_rad.damping_constant * (estimated - current))
          t_rad estimated_t_rad,
         List.zipWith (fun current estimated =>
            current + strategy.w.damping_constant * (estimated - current))
          w estimated_w,
         t_inner + strategy.t_inner.damping_constant *
            (estimated_t_inner - t_inner)) := by
  unfold calculate_next_plasma_state damped_converge_vec damped_converge
  rw [if_pos h]

/-- Witness for C4: a concrete damped update in "damped" mode. -/
theorem calculate_next_plasma_state_damped_update_witness :
    calculate_next_plasma_state damped_strategy [0] [4] 8 [6] [2] 10 =
      Except.ok ([1], [5], 9) := by
  rw [calculate_next_plasma_state_damped_update damped_strategy (Or.inl rfl)]
  decide

/-- C6 (amended): for a strategy type that is neither "damped" nor "specific",
requesting the next-state computation raises the configuration error whose
message names the offending mode, at that point of use; requesting the
convergence verdict does not raise and instead returns `False`. -/
theorem unknown_strategy_type_error (strategy : ConvergenceStrategy)
    (h1 : strategy.type ≠ "damped") (h2 : strategy.type ≠ "specific") :
    (∀ (t_rad w : List ℚ) (t_inner : ℚ) (estimated_w estimated_t_rad : List ℚ)
        (estimated_t_inner : ℚ),
      calculate_next_plasma_state strategy t_rad w t_inner estimated_w
          estimated_t_rad estimated_t_inner =
        Except.error (convergence_type_error_message strategy.type)) ∧
    convergence_type_error_message strategy.type =
      "Convergence strategy type is neither damped nor specific - input is " ++
        strategy.type ∧
    (∀ (no_of_shells : ℕ) (t_rad w : List ℚ) (t_inner : ℚ)
        (estimated_t_rad estimated_w : List ℚ) (estimated_t_inner : ℚ),
      get_convergence_status strategy no_of_shells t_rad w t_inner
        estimated_t_rad estimated_w estimated_t_inner = false) := by
  refine ⟨fun t_rad w t_inner ew etr eti => ?_, rfl,
    fun shells t_rad w t_inner etr ew eti =>
      get_convergence_status_of_ne_specific strategy h2 shells t_rad w t_inner
        etr ew eti⟩
  unfold calculate_next_plasma_state
  rw [if_neg]
  rintro (h | h) <;> [exact h1 h; exact h2 h]

/-- Counterexample for C6 as stated: with strategy type "bogus" the
convergence-verdict request returns the value `False`; no error is raised on
that path (only the next-state computation raises). -/
theorem convergence_status_bogus_counterexample :
    get_convergence_status bogus_strategy 1 [1] [1] 1 [1] [1] 1 = false ∧
    calculate_next_plasma_state bogus_strategy [1] [1] 1 [1] [1] 1 =
      Except.error (convergence_type_error_message "bogus") :=
  ⟨rfl, rfl⟩

/-- Witness for the amended C6 at the "bogus" strategy. -/
theorem unknown_strategy_type_error_witness :
    calculate_next_plasma_state bogus_strategy [2] [3] 4 [5] [6] 7 =
      Except.error (convergence_type_error_message bogus_strategy.type) :=
  (unknown_strategy_type_error bogus_strategy (by decide) (by decide)).1
    [2] [3] 4 [5] [6] 7

/-- C7 (amended): the critical no-packet-escaped diagnostic of one transport
iteration fires exactly when every output packet energy is strictly negative
(the source compares with `< 0`, not `<= 0`); in particular it does not fire
when some packet energy is positive.  The check only logs: it returns
normally and the loop continues. -/
theorem run_single_montecarlo_critical_iff (montecarlo_energies : List ℚ) :
    (run_single_montecarlo_critical montecarlo_energies = true ↔
      ∀ e ∈ montecarlo_energies, e < 0) ∧
    ((∃ e ∈ montecarlo_energies, 0 < e) →
      run_single_montecarlo_critical montecarlo_energies = false) := by
  have hiff : run_single_montecarlo_critical montecarlo_energies = true ↔
      ∀ e ∈ montecarlo_energies, e < 0 := by
    unfold run_single_montecarlo_critical
    rw [decide_eq_true_iff, List.countP_eq_length]
    simp
  refine ⟨hiff, fun hpos => ?_⟩
  obtain ⟨e, he, hp⟩ := hpos
  cases hcrit : run_single_montecarlo_critical montecarlo_energies with
  | false => rfl
  | true => exact absurd (hiff.mp hcrit e he) (by linarith)

/-- Counterexample for C7 as stated: a single packet of energy exactly zero
makes every output energy non-positive, yet the diagnostic condition of the
source is false, because the source counts the strictly negative energies. -/
theorem run_single_montecarlo_critical_counterexample :
    ((0 : ℚ) ≤ 0) ∧ run_single_montecarlo_critical [0] = false := by decide

/-- Witness for the amended C7: all energies strictly negative fires the
diagnostic. -/
theorem run_single_montecarlo_critical_iff_witness :
    run_single_montecarlo_critical [-1] = true :=
  (run_single_montecarlo_critical_iff [-1]).1.mpr (by decide)

/-- C3: in "specific" mode the verdict is true exactly when the converged
fraction of shells strictly exceeds the threshold for `t_rad` and for `w`
(with per-shell convergence meaning relative deviation strictly below the same
threshold) and the scalar relative deviation of `t_inner` is strictly below
its threshold. -/
theorem get_convergence_status_specific_spec (strategy : ConvergenceStrategy)
    (h : strategy.type = "specific") (no_of_shells : ℕ) (t_rad w : List ℚ)
    (t_inner : ℚ) (estimated_t_rad estimated_w : List ℚ)
    (estimated_t_inner : ℚ) :
    get_convergence_status strategy no_of_shells t_rad w t_inner
        estimated_t_rad estimated_w estimated_t_inner = true ↔
      (spec_converged_fraction strategy.t_rad.threshold t_rad estimated_t_rad
          no_of_shells > strategy.t_rad.threshold ∧
        spec_converged_fraction strategy.w.threshold w estimated_w
          no_of_shells > strategy.w.threshold ∧
        |t_inner - estimated_t_inner| / estimated_t_inner <
          strategy.t_inner.threshold) := by
  unfold get_convergence_status spec_converged_fraction relative_deviation_vec
    relative_deviation
  rw [if_pos h, countP_zipWith, countP_zipWith]
  simp [and_assoc]

/-- Witness for C3 at a one-shell input with every deviation zero. -/
theorem get_convergence_status_specific_spec_witness :
    get_convergence_status c2_strategy 1 [1] [1] 1 [1] [1] 1 = true ∧
    spec_converged_fraction c2_strategy.t_rad.threshold [1] [1] 1 >
      c2_strategy.t_rad.threshold := by
  refine ⟨by decide, ?_⟩
  exact ((get_convergence_status_specific_spec c2_strategy rfl 1 [1] [1] 1
    [1] [1] 1).mp (by decide)).1

/-- Helper: the loop exits immediately when its guard is false, with any
fuel. -/
theorem run_loop_guard_false (cfg : TardisConfig) (p : ℚ → ℚ)
    (r : ℕ → RunnerOutput) (fuel : ℕ) (s : SimState)
    (h : ¬ 1 < s.iterations_remaining) :
    run_loop cfg p r fuel s = Except.ok (s, true) := by
  cases fuel with
  | zero => simp [run_loop, h]
  | succ n => simp [run_loop, h]

/-- Helper: one peel of the loop when the guard holds and the body
succeeds. -/
theorem run_loop_step (cfg : TardisConfig) (p : ℚ → ℚ) (r : ℕ → RunnerOutput)
    (fuel : ℕ) (s s' : SimState) (hg : 1 < s.iterations_remaining)
    (hb : loop_body cfg p r s = Except.ok s') :
    run_loop cfg p r (fuel + 1) s = run_loop cfg p r fuel s' := by
  simp [run_loop, hg, hb]

/-- Helper: a successful loop body appends exactly one transport call, with
the normal packet count, zero virtual packets and no final marking, and
increments the executed counter. -/
theorem loop_body_calls (cfg : TardisConfig) (p : ℚ → ℚ) (r : ℕ → RunnerOutput)
    (s s' : SimState) (hb : loop_body cfg p r s = Except.ok s') :
    s'.calls = s.calls ++ [⟨cfg.no_of_packets, 0, false⟩] ∧
    s'.iterations_executed = s.iterations_executed + 1 := by
  simp only [loop_body] at hb
  cases hnext : calculate_next_plasma_state cfg.convergence_strategy s.t_rads s.ws
      s.t_inner (r s.iterations_executed).estimated_w
      (r s.iterations_executed).estimated_t_rad
      (estimate_t_inner p s.t_inner cfg.luminosity_requested
        (r s.iterations_executed).emitted_luminosity) with
  | error e => rw [hnext] at hb; cases hb
  | ok triple =>
    obtain ⟨nt, nw, nti⟩ := triple
    rw [hnext] at hb
    simp only [Except.ok.injEq] at hb
    subst hb
    exact ⟨rfl, rfl⟩

/-- Helper: every state the loop reaches extends the call trace only with
normal non-final transport calls. -/
theorem run_loop_calls (cfg : TardisConfig) (p : ℚ → ℚ) (r : ℕ → RunnerOutput) :
    ∀ (fuel : ℕ) (s s' : SimState) (done : Bool),
      run_loop cfg p r fuel s = Except.ok (s', done) →
      ∃ new_calls, s'.calls = s.calls ++ new_calls ∧
        ∀ c ∈ new_calls, c = (⟨cfg.no_of_packets, 0, false⟩ : MonteCarloCall) := by
  intro fuel
  induction fuel with
  | zero =>
    intro s s' done h
    simp only [run_loop, Except.ok.injEq, Prod.mk.injEq] at h
    obtain ⟨hs, _⟩ := h
    subst hs
    exact ⟨[], by simp, by simp⟩
  | succ n ih =>
    intro s s' done h
    simp only [run_loop] at h
    by_cases hg : 1 < s.iterations_remaining
    · rw [if_pos hg] at h
      cases hbody : loop_body cfg p r s with
      | error e => rw [hbody] at h; cases h
      | ok s2 =>
        rw [hbody] at h
        obtain ⟨nc, hnc, hmem⟩ := ih s2 s' done h
        obtain ⟨hc, _⟩ := loop_body_calls cfg p r s s2 hbody
        refine ⟨⟨cfg.no_of_packets, 0, false⟩ :: nc, ?_, ?_⟩
        · rw [hnc, hc]; simp
        · intro c hcmem
          rcases List.mem_cons.mp hcmem with h1 | h1
          · exact h1
          · exact hmem c h1
    · rw [if_neg hg] at h
      simp only [Except.ok.injEq, Prod.mk.injEq] at h
      obtain ⟨hs, _⟩ := h
      subst hs
      exact ⟨[], by simp, by simp⟩

/-- Helper: with at most one configured iteration the run is exactly the
terminal call, with the model recording a false verdict and zero executed
iterations and keeping its plasma state. -/
theorem legacy_run_simulation_le_one (cfg : TardisConfig)
    (h : cfg.iterations ≤ 1) (p : ℚ → ℚ) (r : ℕ → RunnerOutput)
    (t_rads ws : List ℚ) (t_inner : ℚ) (fuel : ℕ) :
    legacy_run_simulation cfg p r t_rads ws t_inner fuel =
      Except.ok (some
        { calls := [⟨last_run_no_of_packets cfg, cfg.no_of_virtual_packets,
            true⟩]
          verdicts := []
          model_converged := false
          model_iterations_executed := 0
          model_iterations_max_requested := cfg.iterations
          model_no_of_packets := last_run_no_of_packets cfg
          model_no_of_virtual_packets := cfg.no_of_virtual_packets
          model_t_rads := t_rads
          model_ws := ws
          model_t_inner := t_inner }) := by
  have hg : ¬ (1 : ℤ) <
      (initial_sim_state cfg t_rads ws t_inner).iterations_remaining := by
    simp only [initial_sim_state]
    rw [not_lt]
    exact_mod_cast h
  unfold legacy_run_simulation
  rw [run_loop_guard_false cfg p r fuel _ hg]
  rfl

/-- C10: if the run is configured so that the main loop body never executes
(iteration count at most one), the run completes as the single terminal call
and the model records a false convergence verdict and an executed-iteration
count of zero, regardless of the strategy, the runner and the model state. -/
theorem legacy_run_simulation_no_loop (cfg : TardisConfig)
    (h : cfg.iterations ≤ 1) (p : ℚ → ℚ) (r : ℕ → RunnerOutput)
    (t_rads ws : List ℚ) (t_inner : ℚ) (fuel : ℕ) :
    legacy_run_simulation cfg p r t_rads ws t_inner fuel =
      Except.ok (some
        { calls := [⟨last_run_no_of_packets cfg, cfg.no_of_virtual_packets,
            true⟩]
          verdicts := []
          model_converged := false
          model_iterations_executed := 0
          model_iterations_max_requested := cfg.iterations
          model_no_of_packets := last_run_no_of_packets cfg
          model_no_of_virtual_packets := cfg.no_of_virtual_packets
          model_t_rads := t_rads
          model_ws := ws
          model_t_inner := t_inner }) :=
  legacy_run_simulation_le_one cfg h p r t_rads ws t_inner fuel

/-- Witness for C10: the one-iteration configuration with overriding packet
count 5 and 7 virtual packets, on the model state `[2] [3] 4`. -/
theorem legacy_run_simulation_no_loop_witness :
    legacy_run_simulation c5_config c2_pow fixed_runner [2] [3] 4 1 =
      Except.ok (some
        { calls := [⟨5, 7, true⟩]
          verdicts := []
          model_converged := false
          model_iterations_executed := 0
          model_iterations_max_requested := 1
          model_no_of_packets := 5
          model_no_of_virtual_packets := 7
          model_t_rads := [2]
          model_ws := [3]
          model_t_inner := 4 }) :=
  legacy_run_simulation_no_loop c5_config (by decide) c2_pow fixed_runner
    [2] [3] 4 1

/-- C5: the main loop runs only while more than one iteration remains; a
completed run performs, after the loop exits, exactly one terminal transport
call marked final, with the configured last-iteration packet count when one is
set (the normal count otherwise) and the configured virtual-packet count,
while every loop call uses the normal packet count, zero virtual packets and
no final marking; with one configured iteration the loop body never executes
and the terminal call is the only one. -/
theorem legacy_run_simulation_terminal_call (cfg : TardisConfig) (p : ℚ → ℚ)
    (r : ℕ → RunnerOutput) (t_rads ws : List ℚ) (t_inner : ℚ) (fuel : ℕ)
    (res : RunResult)
    (h : legacy_run_simulation cfg p r t_rads ws t_inner fuel =
      Except.ok (some res)) :
    (∃ loop_calls, res.calls = loop_calls ++
        [⟨last_run_no_of_packets cfg, cfg.no_of_virtual_packets, true⟩] ∧
      ∀ c ∈ loop_calls, c = (⟨cfg.no_of_packets, 0, false⟩ : MonteCarloCall)) ∧
    (cfg.iterations ≤ 1 →
      res.calls =
        [⟨last_run_no_of_packets cfg, cfg.no_of_virtual_packets, true⟩]) := by
  constructor
  · simp only [legacy_run_simulation] at h
    cases hloop : run_loop cfg p r fuel (initial_sim_state cfg t_rads ws t_inner) with
    | error e => rw [hloop] at h; cases h
    | ok pair =>
      obtain ⟨s, done⟩ := pair
      rw [hloop] at h
      cases done with
      | false => simp at h
      | true =>
        simp only [Except.ok.injEq, Option.some.injEq] at h
        obtain ⟨nc, hnc, hmem⟩ := run_loop_calls cfg p r fuel _ s true hloop
        subst h
        refine ⟨nc, ?_, hmem⟩
        show s.calls ++ _ = nc ++ _
        rw [hnc]
        simp [initial_sim_state]
  · intro hle
    rw [legacy_run_simulation_le_one cfg hle p r t_rads ws t_inner fuel] at h
    simp only [Except.ok.injEq, Option.some.injEq] at h
    rw [← h]

/-- Witness for C5: the one-iteration run of `c5_config`. -/
theorem legacy_run_simulation_terminal_call_witness :
    legacy_run_simulation c5_config c2_pow fixed_runner [1] [1] 1 3 =
      Except.ok (some c5_result) ∧
    (∃ loop_calls, c5_result.calls = loop_calls ++ [⟨5, 7, true⟩] ∧
      ∀ c ∈ loop_calls, c = (⟨20, 0, false⟩ : MonteCarloCall)) ∧
    c5_result.calls = [⟨5, 7, true⟩] := by
  have h : legacy_run_simulation c5_config c2_pow fixed_runner [1] [1] 1 3 =
      Except.ok (some c5_result) := by decide
  have hthm := legacy_run_simulation_terminal_call c5_config c2_pow fixed_runner
    [1] [1] 1 3 c5_result h
  exact ⟨h, hthm.1, hthm.2 (by decide)⟩

/-- Helper: with a strategy type other than "specific", a successful loop body
leaves the sticky flag clear and records a false verdict. -/
theorem loop_body_not_converged (cfg : TardisConfig) (p : ℚ → ℚ)
    (r : ℕ → RunnerOutput) (s s' : SimState)
    (hty : cfg.convergence_strategy.type ≠ "specific")
    (hb : loop_body cfg p r s = Except.ok s') (hs : s.self_converged = false) :
    s'.self_converged = false ∧ s'.converged = false := by
  simp only [loop_body] at hb
  rw [get_convergence_status_of_ne_specific cfg.convergence_strategy hty] at hb
  cases hnext : calculate_next_plasma_state cfg.convergence_strategy s.t_rads s.ws
      s.t_inner (r s.iterations_executed).estimated_w
      (r s.iterations_executed).estimated_t_rad
      (estimate_t_inner p s.t_inner cfg.luminosity_requested
        (r s.iterations_executed).emitted_luminosity) with
  | error e => rw [hnext] at hb; cases hb
  | ok triple =>
    obtain ⟨nt, nw, nti⟩ := triple
    rw [hnext] at hb
    simp only [Except.ok.injEq] at hb
    subst hb
    refine ⟨?_, rfl⟩
    show (budget_transition _ _ _ false s.self_converged _).2 = false
    rw [hs, budget_transition_idle]

/-- Helper: the loop preserves a clear sticky flag and a false verdict for
strategies that are not "specific". -/
theorem run_loop_not_converged (cfg : TardisConfig) (p : ℚ → ℚ)
    (r : ℕ → RunnerOutput) (hty : cfg.convergence_strategy.type ≠ "specific") :
    ∀ (fuel : ℕ) (s s' : SimState) (done : Bool),
      run_loop cfg p r fuel s = Except.ok (s', done) →
      s.self_converged = false → s.converged = false →
      s'.self_converged = false ∧ s'.converged = false := by
  intro fuel
  induction fuel with
  | zero =>
    intro s s' done h hs hc
    simp only [run_loop, Except.ok.injEq, Prod.mk.injEq] at h
    obtain ⟨h1, _⟩ := h
    subst h1
    exact ⟨hs, hc⟩
  | succ n ih =>
    intro s s' done h hs hc
    simp only [run_loop] at h
    by_cases hg : 1 < s.iterations_remaining
    · rw [if_pos hg] at h
      cases hbody : loop_body cfg p r s with
      | error e => rw [hbody] at h; cases h
      | ok s2 =>
        rw [hbody] at h
        obtain ⟨h1, h2⟩ := loop_body_not_converged cfg p r s s2 hty hbody hs
        exact ih s2 s' done h h1 h2
    · rw [if_neg hg] at h
      simp only [Except.ok.injEq, Prod.mk.injEq] at h
      obtain ⟨h1, _⟩ := h
      subst h1
      exact ⟨hs, hc⟩

/-- C9: whenever the configured strategy type is not "specific" (including the
documented "damped" mode), the convergence verdict is false for every input,
the sticky converged flag stays clear over any run (the hold state is never
entered), and a completed run records a false final verdict on the model. -/
theorem nonspecific_never_converges (strategy : ConvergenceStrategy)
    (h : strategy.type ≠ "specific") :
    (∀ (no_of_shells : ℕ) (t_rad w : List ℚ) (t_inner : ℚ)
        (estimated_t_rad estimated_w : List ℚ) (estimated_t_inner : ℚ),
      get_convergence_status strategy no_of_shells t_rad w t_inner
        estimated_t_rad estimated_w estimated_t_inner = false) ∧
    (∀ cfg : TardisConfig, cfg.convergence_strategy = strategy →
      ∀ (p : ℚ → ℚ) (r : ℕ → RunnerOutput) (fuel : ℕ) (s s' : SimState)
        (done : Bool),
        run_loop cfg p r fuel s = Except.ok (s', done) →
        s.self_converged = false → s.converged = false →
        s'.self_converged = false ∧ s'.converged = false) ∧
    (∀ cfg : TardisConfig, cfg.convergence_strategy = strategy →
      ∀ (p : ℚ → ℚ) (r : ℕ → RunnerOutput) (t_rads ws : List ℚ) (t_inner : ℚ)
        (fuel : ℕ) (res : RunResult),
        legacy_run_simulation cfg p r t_rads ws t_inner fuel =
          Except.ok (some res) →
        res.model_converged = false) := by
  have hty : ∀ cfg : TardisConfig, cfg.convergence_strategy = strategy →
      cfg.convergence_strategy.type ≠ "specific" := by
    intro cfg hcfg
    rw [hcfg]
    exact h
  refine ⟨fun shells t_rad w t_inner etr ew eti =>
      get_convergence_status_of_ne_specific strategy h shells t_rad w t_inner
        etr ew eti,
    fun cfg hcfg p r fuel s s' done hrun =>
      run_loop_not_converged cfg p r (hty cfg hcfg) fuel s s' done hrun,
    fun cfg hcfg p r t_rads ws t_inner fuel res hrun => ?_⟩
  simp only [legacy_run_simulation] at hrun
  cases hloop : run_loop cfg p r fuel (initial_sim_state cfg t_rads ws t_inner) with
  | error e => rw [hloop] at hrun; cases hrun
  | ok pair =>
    obtain ⟨s, done⟩ := pair
    rw [hloop] at hrun
    cases done with
    | false => simp at hrun
    | true =>
      simp only [Except.ok.injEq, Option.some.injEq] at hrun
      obtain ⟨-, hconv⟩ := run_loop_not_converged cfg p r (hty cfg hcfg) fuel _ s
        true hloop rfl rfl
      rw [← hrun]
      exact hconv

/-- Witness for C9: a concrete completed three-iteration run in "damped" mode
records a false final verdict. -/
theorem nonspecific_never_converges_witness :
    legacy_run_simulation c9_config c2_pow fixed_runner [1] [1] 1 5 =
      Except.ok (some c9_result) ∧ c9_result.model_converged = false := by
  have h : legacy_run_simulation c9_config c2_pow fixed_runner [1] [1] 1 5 =
      Except.ok (some c9_result) := by decide
  exact ⟨h, (nonspecific_never_converges damped_strategy (by decide)).2.2
    c9_config rfl c2_pow fixed_runner [1] [1] 1 5 c9_result h⟩

/-- Helper: from the plateau reached at the fifth executed iteration of the
hold-iterations scenario, one more loop body re-arms the remaining budget to
`hold_iterations = 3`, keeps the sticky flag set and leaves the plasma state
at its fixed point. -/
theorem c2_loop_body_plateau (n : ℕ) (hn : 4 ≤ n) (cv : Bool)
    (cs : List MonteCarloCall) (vs : List Bool) :
    loop_body c2_config c2_pow c2_runner ⟨3, n, true, cv, [1], [1], 1, cs, vs⟩ =
      Except.ok ⟨3, n + 1, true, true, [1], [1], 1,
        cs ++ [⟨100, 0, false⟩], vs ++ [true]⟩ := by
  have hrun : c2_runner n = ⟨[1], [1], 1⟩ := by
    unfold c2_runner
    rw [if_neg (by omega)]
  simp only [loop_body, hrun]
  rfl

/-- Helper: from any plateau state, the loop keeps running: with fuel for
`fuel` more iterations it executes exactly `fuel` more iterations, the
remaining budget stays 3, and the guard never becomes false. -/
theorem c2_run_plateau (fuel : ℕ) :
    ∀ (n : ℕ) (cv : Bool) (cs : List MonteCarloCall) (vs : List Bool), 4 ≤ n →
    ∃ s', run_loop c2_config c2_pow c2_runner fuel
        ⟨3, n, true, cv, [1], [1], 1, cs, vs⟩ = Except.ok (s', false) ∧
      s'.iterations_executed = n + fuel ∧ s'.iterations_remaining = 3 ∧
      s'.self_converged = true := by
  induction fuel with
  | zero =>
    intro n cv cs vs hn
    exact ⟨_, rfl, rfl, rfl, rfl⟩
  | succ m ih =>
    intro n cv cs vs hn
    rw [run_loop_step c2_config c2_pow c2_runner m
      ⟨3, n, true, cv, [1], [1], 1, cs, vs⟩
      ⟨3, n + 1, true, true, [1], [1], 1, cs ++ [⟨100, 0, false⟩], vs ++ [true]⟩
      (show (1 : ℤ) < 3 by decide) (c2_loop_body_plateau n hn cv cs vs)]
    obtain ⟨s', h1, h2, h3, h4⟩ := ih (n + 1) true (cs ++ [⟨100, 0, false⟩])
      (vs ++ [true]) (by omega)
    exact ⟨s', h1, by omega, h3, h4⟩

/-- Helper: the first five iterations of the hold-iterations scenario reach
the plateau state `c2_s5`. -/
theorem c2_run_peel (fuel : ℕ) :
    c2_run (fuel + 5) = run_loop c2_config c2_pow c2_runner fuel c2_s5 := by
  have h1 : c2_run (fuel + 5) = run_loop c2_config c2_pow c2_runner (fuel + 4)
      ⟨9, 1, false, false, [1], [1], 1, [⟨100, 0, false⟩], [false]⟩ :=
    run_loop_step c2_config c2_pow c2_runner (fuel + 4)
      ⟨10, 0, false, false, [1], [1], 1, [], []⟩
      ⟨9, 1, false, false, [1], [1], 1, [⟨100, 0, false⟩], [false]⟩
      (by decide) (by decide)
  have h2 : run_loop c2_config c2_pow c2_runner (fuel + 4)
        ⟨9, 1, false, false, [1], [1], 1, [⟨100, 0, false⟩], [false]⟩ =
      run_loop c2_config c2_pow c2_runner (fuel + 3)
        ⟨8, 2, false, false, [1], [1], 1,
          [⟨100, 0, false⟩, ⟨100, 0, false⟩], [false, false]⟩ :=
    run_loop_step c2_config c2_pow c2_runner (fuel + 3)
      ⟨9, 1, false, false, [1], [1], 1, [⟨100, 0, false⟩], [false]⟩
      ⟨8, 2, false, false, [1], [1], 1,
        [⟨100, 0, false⟩, ⟨100, 0, false⟩], [false, false]⟩
      (by decide) (by decide)
  have h3 : run_loop c2_config c2_pow c2_runner (fuel + 3)
        ⟨8, 2, false, false, [1], [1], 1,
          [⟨100, 0, false⟩, ⟨100, 0, false⟩], [false, false]⟩ =
      run_loop c2_config c2_pow c2_runner (fuel + 2)
        ⟨7, 3, false, false, [1], [1], 1,
          [⟨100, 0, false⟩, ⟨100, 0, false⟩, ⟨100, 0, false⟩],
          [false, false, false]⟩ :=
    run_loop_step c2_config c2_pow c2_runner (fuel + 2)
      ⟨8, 2, false, false, [1], [1], 1,
        [⟨100, 0, false⟩, ⟨100, 0, false⟩], [false, false]⟩
      ⟨7, 3, false, false, [1], [1], 1,
        [⟨100, 0, false⟩, ⟨100, 0, false⟩, ⟨100, 0, false⟩],
        [false, false, false]⟩
      (by decide) (by decide)
  have h4 : run_loop c2_config c2_pow c2_runner (fuel + 2)
        ⟨7, 3, false, false, [1], [1], 1,
          [⟨100, 0, false⟩, ⟨100, 0, false⟩, ⟨100, 0, false⟩],
          [false, false, false]⟩ =
      run_loop c2_config c2_pow c2_runner (fuel + 1)
        ⟨6, 4, false, false, [1], [1], 1,
          [⟨100, 0, false⟩, ⟨100, 0, false⟩, ⟨100, 0, false⟩, ⟨100, 0, false⟩],
          [false, false, false, false]⟩ :=
    run_loop_step c2_config c2_pow c2_runner (fuel + 1)
      ⟨7, 3, false, false, [1], [1], 1,
        [⟨100, 0, false⟩, ⟨100, 0, false⟩, ⟨100, 0, false⟩],
        [false, false, false]⟩
      ⟨6, 4, false, false, [1], [1], 1,
        [⟨100, 0, false⟩, ⟨100, 0, false⟩, ⟨100, 0, false⟩, ⟨100, 0, false⟩],
        [false, false, false, false]⟩
      (by decide) (by decide)
  have h5 : run_loop c2_config c2_pow c2_runner (fuel + 1)
        ⟨6, 4, false, false, [1], [1], 1,
          [⟨100, 0, false⟩, ⟨100, 0, false⟩, ⟨100, 0, false⟩, ⟨100, 0, false⟩],
          [false, false, false, false]⟩ =
      run_loop c2_config c2_pow c2_runner fuel c2_s5 :=
    run_loop_step c2_config c2_pow c2_runner fuel
      ⟨6, 4, false, false, [1], [1], 1,
        [⟨100, 0, false⟩, ⟨100, 0, false⟩, ⟨100, 0, false⟩, ⟨100, 0, false⟩],
        [false, false, false, false]⟩
      c2_s5
      (by decide) (by decide)
  exact h1.trans (h2.trans (h3.trans (h4.trans h5)))

/-- C2 (amended): in the hold-iterations scenario (`hold_iterations = 3`,
10-iteration budget, verdict first true on iteration 5 and true ever after),
every converged iteration re-arms `iterations_remaining` to `hold_iterations`,
so the loop guard never becomes false: for every fuel bound the loop is still
running after executing exactly that many iterations, and from iteration 5 on
the remaining budget is pinned at 3 with the sticky flag set.  In particular
the loop does not stop 3 iterations after iteration 5; it reaches iteration 10
and every later iteration, and the terminal run is never reached. -/
theorem c2_hold_scenario_amended :
    (∀ fuel : ℕ, ∃ s, c2_run fuel = Except.ok (s, false) ∧
      s.iterations_executed = fuel) ∧
    (∀ fuel : ℕ, ∃ s, c2_run (fuel + 5) = Except.ok (s, false) ∧
      s.iterations_executed = fuel + 5 ∧ s.iterations_remaining = 3 ∧
      s.self_converged = true) := by
  have hfive : ∀ fuel : ℕ, ∃ s, c2_run (fuel + 5) = Except.ok (s, false) ∧
      s.iterations_executed = fuel + 5 ∧ s.iterations_remaining = 3 ∧
      s.self_converged = true := by
    intro fuel
    obtain ⟨s', h1, h2, h3, h4⟩ := c2_run_plateau fuel 5 true
      [⟨100, 0, false⟩, ⟨100, 0, false⟩, ⟨100, 0, false⟩, ⟨100, 0, false⟩,
        ⟨100, 0, false⟩]
      [false, false, false, false, true] (by omega)
    exact ⟨s', (c2_run_peel fuel).trans h1, by omega, h3, h4⟩
  refine ⟨?_, hfive⟩
  intro fuel
  rcases Nat.lt_or_ge fuel 5 with hf | hf
  · interval_cases fuel
    · exact ⟨⟨10, 0, false, false, [1], [1], 1, [], []⟩, by decide, rfl⟩
    · exact ⟨⟨9, 1, false, false, [1], [1], 1, [⟨100, 0, false⟩], [false]⟩,
        by decide, rfl⟩
    · exact ⟨⟨8, 2, false, false, [1], [1], 1,
        [⟨100, 0, false⟩, ⟨100, 0, false⟩], [false, false]⟩, by decide, rfl⟩
    · exact ⟨⟨7, 3, false, false, [1], [1], 1,
        [⟨100, 0, false⟩, ⟨100, 0, false⟩, ⟨100, 0, false⟩],
        [false, false, false]⟩, by decide, rfl⟩
    · exact ⟨⟨6, 4, false, false, [1], [1], 1,
        [⟨100, 0, false⟩, ⟨100, 0, false⟩, ⟨100, 0, false⟩, ⟨100, 0, false⟩],
        [false, false, false, false]⟩, by decide, rfl⟩
  · obtain ⟨m, rfl⟩ : ∃ m, fuel = m + 5 := ⟨fuel - 5, by omega⟩
    obtain ⟨s, hs1, hs2, -, -⟩ := hfive m
    exact ⟨s, hs1, hs2⟩

/-- Counterexample for C2 as stated: in the scenario, after 12 executed
iterations (the verdicts having first become true on iteration 5 and stayed
true) the loop guard still holds, so the loop did not terminate 3 iterations
after iteration 5 and did reach iteration 10; even with fuel 20 the run never
proceeds to the terminal invocation. -/
theorem c2_hold_scenario_counterexample :
    c2_run 12 = Except.ok
      (⟨3, 12, true, true, [1], [1], 1,
        [⟨100, 0, false⟩, ⟨100, 0, false⟩, ⟨100, 0, false⟩, ⟨100, 0, false⟩,
         ⟨100, 0, false⟩, ⟨100, 0, false⟩, ⟨100, 0, false⟩, ⟨100, 0, false⟩,
         ⟨100, 0, false⟩, ⟨100, 0, false⟩, ⟨100, 0, false⟩, ⟨100, 0, false⟩],
        [false, false, false, false, true, true, true, true, true, true, true,
         true]⟩, false) ∧
    legacy_run_simulation c2_config c2_pow c2_runner [1] [1] 1 20 =
      Except.ok none :=
  ⟨by decide, by decide⟩
